import Mathlib

/-!
Shallow embedding of the consent / basket / dataLayer core of the
`wot-is-gtm` repository (files `js/consent.js`, `js/products.js` and the
basket module `basket.js`), together with proofs settling the claims of
the specification against it.

Modelling conventions:
* JS numbers carrying money are modelled as exact rationals (`ℚ`);
  `Math.round` is modelled as `fun q => Int.floor (q + 1/2)`, which is its
  mathematical definition on all inputs in range.
* `localStorage` is modelled as the value it holds: the basket state in
  `EngineState.basket` is simultaneously the persisted basket (the source
  re-reads storage at the start of every operation and writes it back).
* `window.dataLayer` is the append-only list `EngineState.dataLayer`;
  `push(x)` is `dl ++ [x]`.
* `console.warn` / `console.error` messages are collected in
  `EngineState.warnings`; `console.log` calls are not observable effects.
* Absent JS object fields (`undefined` / `null`) are modelled as `Option`.
-/

namespace GtmSpec

/-! ## Consent data model (`js/consent.js`) -/

/-- A Consent Mode v2 value: the strings `'granted'` / `'denied'`. -/
inductive ConsentValue
  | granted
  | denied
deriving DecidableEq, Repr

/-- A decision object as passed to `applyConsent` / `saveConsent`: a JS
object in which each of the seven category keys may be present or absent. -/
structure ConsentDecision where
  ad_storage : Option ConsentValue
  ad_user_data : Option ConsentValue
  ad_personalization : Option ConsentValue
  analytics_storage : Option ConsentValue
  functionality_storage : Option ConsentValue
  personalization_storage : Option ConsentValue
  security_storage : Option ConsentValue
deriving DecidableEq, Repr

/-- A total seven-category consent state (every category carries a value). -/
structure ConsentState where
  ad_storage : ConsentValue
  ad_user_data : ConsentValue
  ad_personalization : ConsentValue
  analytics_storage : ConsentValue
  functionality_storage : ConsentValue
  personalization_storage : ConsentValue
  security_storage : ConsentValue
deriving DecidableEq, Repr

/-- The argument object of the `gtag('consent', 'update', ...)` call in
`applyConsent`: six categories, each defaulted to `'denied'` by `||`.
It has no `security_storage` field — the source comments
"security_storage is always 'granted' and set in the default". -/
structure GtagConsentUpdate where
  ad_storage : ConsentValue
  ad_user_data : ConsentValue
  ad_personalization : ConsentValue
  analytics_storage : ConsentValue
  functionality_storage : ConsentValue
  personalization_storage : ConsentValue
deriving DecidableEq, Repr

/-- The update object built inside `applyConsent`:
`consent.X || 'denied'` for each of the six non-security categories. -/
def gtagUpdateOf (d : ConsentDecision) : GtagConsentUpdate :=
  ⟨d.ad_storage.getD .denied,
   d.ad_user_data.getD .denied,
   d.ad_personalization.getD .denied,
   d.analytics_storage.getD .denied,
   d.functionality_storage.getD .denied,
   d.personalization_storage.getD .denied⟩

/-- The value persisted under `gtm_consent_preferences` by `saveConsent`:
`{...consent, timestamp: new Date().toISOString()}`. -/
structure StoredConsent extends ConsentDecision where
  timestamp : String
deriving DecidableEq, Repr

/-- `saveConsent`: spreads the decision object and adds a timestamp.
The timestamp string is an input here (the clock is external). -/
def saveConsent (d : ConsentDecision) (ts : String) : StoredConsent :=
  { d with timestamp := ts }

/-- Modelled from the spec (and the repository's status notes): the
`gtag('consent', 'default', ...)` block set inline in every HTML page head;
the HTML pages are not part of the extracted sources. All seven categories
are declared, all `denied` except `security_storage : 'granted'`. -/
def defaultConsentState : ConsentState :=
  ⟨.denied, .denied, .denied, .denied, .denied, .denied, .granted⟩

/-- Modelled from the spec: Consent Mode update semantics — a consent
update overrides exactly the categories it names and leaves the rest at
their default. The update of `applyConsent` names the six non-security
categories, so `security_storage` keeps the default value. -/
def effectiveConsentAfterUpdate (d : ConsentDecision) : ConsentState :=
  ⟨(gtagUpdateOf d).ad_storage,
   (gtagUpdateOf d).ad_user_data,
   (gtagUpdateOf d).ad_personalization,
   (gtagUpdateOf d).analytics_storage,
   (gtagUpdateOf d).functionality_storage,
   (gtagUpdateOf d).personalization_storage,
   defaultConsentState.security_storage⟩

/-! ## Basket data model (`basket.js`) -/

/-- A basket row as stored under `gtm_basket`:
`{ item_id, item_name, item_category, price, quantity }`.
`item_category` is always a string in storage (defaulted to `''` on
insertion); `quantity` is an integer. -/
structure BasketItem where
  item_id : String
  item_name : String
  item_category : String
  price : ℚ
  quantity : ℤ
deriving DecidableEq, Repr

/-- A product argument to `addToBasket`: `{ item_id, item_name, price }`,
with `item_category` possibly absent (the products-page handler does not
set it). -/
structure Product where
  item_id : String
  item_name : String
  item_category : Option String
  price : ℚ
deriving DecidableEq, Repr

/-- An entry of an `ecommerce.items` array as pushed to the dataLayer.
`item_category` is `none` when the source passes an absent field through
(the `add_to_cart` push uses `product.item_category` without defaulting). -/
structure EcomItem where
  item_id : String
  item_name : String
  item_category : Option String
  price : ℚ
  quantity : ℤ
deriving DecidableEq, Repr

/-- The `ecommerce` object of a dataLayer push. Only the `purchase`
event carries a `transaction_id`. -/
structure EcommercePayload where
  transaction_id : Option String
  currency : String
  value : ℚ
  items : List EcomItem
deriving DecidableEq, Repr

/-- The order object built by `pushPurchaseEvent` and persisted under
`gtm_last_order`. -/
structure Order where
  transaction_id : String
  value : ℚ
  currency : String
  items : List EcomItem
deriving DecidableEq, Repr

/-- One entry of `window.dataLayer`, as pushed by this codebase:
the clearing entry `{ ecommerce: null }`, a named event carrying an
`ecommerce` payload, the `gtag('consent','update',...)` push, or the
custom `consent_updated` event (whose `consent_preferences` field is the
decision object as passed to `applyConsent`). -/
inductive DLEntry
  | clear
  | ecom (event : String) (payload : EcommercePayload)
  | gtagConsent (update : GtagConsentUpdate)
  | consentUpdated (consent_preferences : ConsentDecision)
deriving DecidableEq, Repr

/-- `'EUR'` — the `CURRENCY` constant of `basket.js`. -/
def CURRENCY : String := "EUR"

/-- JS `s || ''` on a string: the identity except that it maps the falsy
`''` to `''`. Kept to mirror the source's `item.item_category || ''`. -/
def jsOrEmpty (s : String) : String :=
  if s == "" then "" else s

/-- The whole observable state: the persisted basket, the persisted last
order, the dataLayer, and the recorded warnings/errors. -/
structure EngineState where
  basket : List BasketItem
  lastOrder : Option Order
  dataLayer : List DLEntry
  warnings : List String
deriving DecidableEq, Repr

/-- The state at page load with empty storage: empty basket, no order,
empty dataLayer, nothing logged. -/
def initState : EngineState :=
  ⟨[], none, [], []⟩

/-! ## Derived basket values (`getBasketItemCount`, `getBasketTotal`) -/

/-- `getBasketItemCount`: `basket.reduce((total, item) => total + item.quantity, 0)`. -/
def getBasketItemCount (basket : List BasketItem) : ℤ :=
  basket.foldl (fun total item => total + item.quantity) 0

/-- `Math.round`, i.e. the floor of `x + 1/2`. -/
def jsRound (q : ℚ) : ℤ :=
  ⌊q + 1/2⌋

/-- Rounding to 2 decimal places as written in the source:
`Math.round(total * 100) / 100`. -/
def jsRound2 (q : ℚ) : ℚ :=
  (jsRound (q * 100) : ℚ) / 100

/-- `getBasketTotal`: sums `item.price * item.quantity` with `reduce`, then
rounds the aggregate to 2 decimal places. -/
def getBasketTotal (basket : List BasketItem) : ℚ :=
  jsRound2 (basket.foldl (fun sum item => sum + item.price * (item.quantity : ℚ)) 0)

/-! ## Basket operations -/

/-- The basket mutation of `addToBasket`: linear scan for the first row
with the product's `item_id`; if found its `quantity` is incremented,
otherwise a fresh row with `quantity = 1` (and `item_category` defaulted
by `|| ''`) is appended at the end. -/
def addItem (p : Product) : List BasketItem → List BasketItem
  | [] => [⟨p.item_id, p.item_name, p.item_category.getD "", p.price, 1⟩]
  | r :: rest =>
      if r.item_id == p.item_id then
        { r with quantity := r.quantity + 1 } :: rest
      else
        r :: addItem p rest

/-- `addToBasket`: mutate the basket, save it, then push the clearing
entry and the `add_to_cart` event. The event's `value` is the product's
unit price and its single item has `quantity: 1` (the delta, not the new
total); `item_category` is passed through raw (possibly absent). -/
def addToBasket (p : Product) (s : EngineState) : EngineState :=
  { s with
    basket := addItem p s.basket,
    dataLayer := s.dataLayer ++
      [.clear,
       .ecom "add_to_cart"
         ⟨none, CURRENCY, p.price,
          [⟨p.item_id, p.item_name, p.item_category, p.price, 1⟩]⟩] }

/-- `removeFromBasket`: find the first row with the given `item_id`; if
absent, warn and return; otherwise drop every row with that id, save, and
push the clearing entry plus the `remove_from_cart` event carrying the
removed row (value `price * quantity`, quantity as it was). -/
def removeFromBasket (itemId : String) (s : EngineState) : EngineState :=
  match s.basket.find? (fun r => r.item_id == itemId) with
  | none =>
      { s with warnings := s.warnings ++ ["Basket: Item not found for removal: " ++ itemId] }
  | some removedItem =>
      { s with
        basket := s.basket.filter (fun r => r.item_id != itemId),
        dataLayer := s.dataLayer ++
          [.clear,
           .ecom "remove_from_cart"
             ⟨none, CURRENCY, removedItem.price * (removedItem.quantity : ℚ),
              [⟨removedItem.item_id, removedItem.item_name,
                some (jsOrEmpty removedItem.item_category),
                removedItem.price, removedItem.quantity⟩]⟩] }

/-- The basket mutation of `updateBasketQuantity`'s loop: set the
`quantity` of the first row with the given id and stop (`break`). -/
def setQtyFirst (itemId : String) (n : ℤ) : List BasketItem → List BasketItem
  | [] => []
  | r :: rest =>
      if r.item_id == itemId then
        { r with quantity := n } :: rest
      else
        r :: setQtyFirst itemId n rest

/-- `updateBasketQuantity`: delegates to `removeFromBasket` when the new
quantity is `≤ 0`; otherwise updates the first matching row, saves, and
pushes no dataLayer event. -/
def updateBasketQuantity (itemId : String) (n : ℤ) (s : EngineState) : EngineState :=
  if n ≤ 0 then
    removeFromBasket itemId s
  else
    { s with basket := setQtyFirst itemId n s.basket }

/-- The `basket.map(...)` projection shared by `begin_checkout`,
`view_cart` and `pushPurchaseEvent`: full row, `item_category` defaulted
by `|| ''`. -/
def toEcomItem (r : BasketItem) : EcomItem :=
  ⟨r.item_id, r.item_name, some (jsOrEmpty r.item_category), r.price, r.quantity⟩

/-- `pushBeginCheckout`: no basket mutation; pushes the clearing entry and
a `begin_checkout` event with the whole basket and its rounded total. -/
def pushBeginCheckout (s : EngineState) : EngineState :=
  { s with
    dataLayer := s.dataLayer ++
      [.clear,
       .ecom "begin_checkout"
         ⟨none, CURRENCY, getBasketTotal s.basket, s.basket.map toEcomItem⟩] }

/-- `pushViewCart`: no basket mutation; pushes the clearing entry and a
`view_cart` event with the whole basket and its rounded total. -/
def pushViewCart (s : EngineState) : EngineState :=
  { s with
    dataLayer := s.dataLayer ++
      [.clear,
       .ecom "view_cart"
         ⟨none, CURRENCY, getBasketTotal s.basket, s.basket.map toEcomItem⟩] }

/-- `pushPurchaseEvent`: read the basket and its total, build the order
with a generated transaction id (`'T-' + Math.floor(Math.random()*1000000)`;
the random draw is the `rnd` input here), persist the order, push the
clearing entry and the `purchase` event carrying the pre-clear snapshot,
then clear the basket. Returns the order, as the source does. -/
def pushPurchaseEvent (rnd : ℕ) (s : EngineState) : EngineState × Order :=
  let transactionId := "T-" ++ toString rnd
  let order : Order :=
    ⟨transactionId, getBasketTotal s.basket, CURRENCY, s.basket.map toEcomItem⟩
  ({ s with
     lastOrder := some order,
     dataLayer := s.dataLayer ++
       [.clear,
        .ecom "purchase"
          ⟨some transactionId, CURRENCY, getBasketTotal s.basket, order.items⟩],
     basket := [] },
   order)

/-- `applyConsent`: pushes the `gtag('consent','update',...)` object and
then the `consent_updated` event whose `consent_preferences` field is the
decision object exactly as passed in. -/
def applyConsent (d : ConsentDecision) (dl : List DLEntry) : List DLEntry :=
  dl ++ [.gtagConsent (gtagUpdateOf d), .consentUpdated d]

/-! ## The operation language and its step function -/

/-- One user-triggered call into the engine. `purchase` carries the random
draw used for the transaction id; `consent` is a call to `applyConsent`. -/
inductive Op
  | add (p : Product)
  | remove (itemId : String)
  | setQty (itemId : String) (n : ℤ)
  | beginCheckout
  | viewCart
  | purchase (rnd : ℕ)
  | consent (d : ConsentDecision)
deriving Repr

/-- Execute one operation. -/
def step : Op → EngineState → EngineState
  | .add p, s => addToBasket p s
  | .remove itemId, s => removeFromBasket itemId s
  | .setQty itemId n, s => updateBasketQuantity itemId n s
  | .beginCheckout, s => pushBeginCheckout s
  | .viewCart, s => pushViewCart s
  | .purchase rnd, s => (pushPurchaseEvent rnd s).1
  | .consent d, s => { s with dataLayer := applyConsent d s.dataLayer }

/-- Execute a sequence of operations in order. -/
def runOps (ops : List Op) (s : EngineState) : EngineState :=
  ops.foldl (fun s op => step op s) s

/-! ## The products-page click handler (`js/products.js`) -/

/-- The data read off a product card by the click handler, after parsing:
`getAttribute` results are `none` when the attribute is missing, and the
`price` field is the `parseFloat` result with `none` standing for `NaN`
(missing or non-numeric `data-item-price`). -/
structure ProductCard where
  item_id : Option String
  item_name : Option String
  price : Option ℚ
deriving DecidableEq, Repr

/-- JS falsiness of a string-or-null attribute value: `null` and `''` are
falsy, every other string is truthy. -/
def jsFalsy : Option String → Bool
  | none => true
  | some s => s == ""

/-- The handler's validation condition
`!product.item_id || !product.item_name || isNaN(product.price)`. -/
def cardInvalid (card : ProductCard) : Bool :=
  jsFalsy card.item_id || jsFalsy card.item_name || card.price.isNone

/-- The product object the handler passes to `addToBasket` once validation
has passed; it sets no `item_category`. (The `getD` defaults never fire on
a validated card.) -/
def productOfCard (card : ProductCard) : Product :=
  ⟨card.item_id.getD "", card.item_name.getD "", none, card.price.getD 0⟩

/-- The "Add to Basket" click handler of `js/products.js`: with no parent
card it logs an error and returns; with malformed card data it logs
`'Invalid product data'` and returns before any mutation; otherwise it
calls `addToBasket`. -/
def productsClickAdd (card : Option ProductCard) (s : EngineState) : EngineState :=
  match card with
  | none =>
      { s with warnings := s.warnings ++ ["Could not find parent product card for button"] }
  | some c =>
      if cardInvalid c then
        { s with warnings := s.warnings ++ ["Invalid product data"] }
      else
        addToBasket (productOfCard c) s

/-! ## Stream-shape predicates (for the clear-then-push invariant) -/

/-- Does a dataLayer entry carry an `ecommerce` payload? -/
def isEcom : DLEntry → Bool
  | .ecom _ _ => true
  | _ => false

/-- Is a dataLayer entry the clearing entry `{ ecommerce: null }`? -/
def isClear : DLEntry → Bool
  | .clear => true
  | _ => false

/-- Scan a stream suffix knowing the entry just before it: every
payload-carrying entry must be directly preceded by the clearing entry. -/
def pairsOkFrom (prev : DLEntry) : List DLEntry → Bool
  | [] => true
  | e :: rest => (!(isEcom e) || isClear prev) && pairsOkFrom e rest

/-- The clear-then-push stream invariant: no payload-carrying entry sits
at the head of the stream, and every payload-carrying entry is directly
preceded by the clearing entry. -/
def streamOk : List DLEntry → Bool
  | [] => true
  | e :: rest => !(isEcom e) && pairsOkFrom e rest

/-! ## Spec-side definitions and claim statements (for the refuted claims) -/

/-- Modelled from the spec: the "full resulting ConsentState" that
`applyDecision` is described to produce — the partial decision merged
over the default, with unspecified categories `denied` and `security`
forced to `granted`. -/
def specResultingState (d : ConsentDecision) : ConsentState :=
  ⟨d.ad_storage.getD .denied,
   d.ad_user_data.getD .denied,
   d.ad_personalization.getD .denied,
   d.analytics_storage.getD .denied,
   d.functionality_storage.getD .denied,
   d.personalization_storage.getD .denied,
   .granted⟩

/-- The decision objects carried by the `consent_updated` events of a
stream, in order. -/
def consentUpdatedPayloads (dl : List DLEntry) : List ConsentDecision :=
  dl.filterMap fun e =>
    match e with
    | .consentUpdated d => some d
    | _ => none

/-- Claim C1 as stated, at one decision: both the state persisted by
`saveConsent` and the state carried by the emitted `consent_updated`
event have the `security` category equal to `granted`. -/
def claimC1At (d : ConsentDecision) (ts : String) : Prop :=
  (saveConsent d ts).security_storage = some ConsentValue.granted
  ∧ ∀ p ∈ consentUpdatedPayloads (applyConsent d []),
      p.security_storage = some ConsentValue.granted

/-- A decision carries the full resulting seven-category state when each
category key is present and equal to the merged resulting value. -/
def carriesFullResultingState (d : ConsentDecision) : Prop :=
  d.ad_storage = some (specResultingState d).ad_storage
  ∧ d.ad_user_data = some (specResultingState d).ad_user_data
  ∧ d.ad_personalization = some (specResultingState d).ad_personalization
  ∧ d.analytics_storage = some (specResultingState d).analytics_storage
  ∧ d.functionality_storage = some (specResultingState d).functionality_storage
  ∧ d.personalization_storage = some (specResultingState d).personalization_storage
  ∧ d.security_storage = some (specResultingState d).security_storage

/-- Claim C5 as stated, at one decision: `applyConsent` emits exactly one
`consent_updated` event and that event carries the full resulting
ConsentState (all seven categories with their merged values). -/
def claimC5At (d : ConsentDecision) : Prop :=
  consentUpdatedPayloads (applyConsent d []) = [d]
  ∧ ∀ p ∈ consentUpdatedPayloads (applyConsent d []), carriesFullResultingState p

/-- Claim C8 as stated, at one call: `addToBasket` on a malformed product
is rejected before any mutation — basket unchanged, no event appended,
and a warning recorded. -/
def claimC8At (p : Product) (s : EngineState) : Prop :=
  (step (.add p) s).basket = s.basket
  ∧ (step (.add p) s).dataLayer = s.dataLayer
  ∧ (step (.add p) s).warnings ≠ s.warnings

/-! ## Concrete sample inputs used by witnesses and counterexamples -/

/-- A state holding one basket row `A`. -/
def sampleStateA : EngineState :=
  ⟨[⟨"A", "Alpha", "", 10, 1⟩], none, [], []⟩

/-- The spec's checkout example: basket
`[{id:"A", price:10, qty:2}, {id:"B", price:5, qty:1}]`. -/
def sampleStateAB : EngineState :=
  ⟨[⟨"A", "Alpha", "", 10, 2⟩, ⟨"B", "Beta", "", 5, 1⟩], none, [], []⟩

/-- A well-formed product. -/
def prodA : Product :=
  ⟨"A", "Alpha", none, 10⟩

/-- A malformed product: the `item_id` is the falsy `''` (the id the
products-page validation treats as missing). -/
def badProduct : Product :=
  ⟨"", "Widget", none, 5⟩

/-- A card with no `data-item-id` attribute. -/
def badCard : ProductCard :=
  ⟨none, some "Widget", some 5⟩

/-- A fully valid card. -/
def goodCard : ProductCard :=
  ⟨some "A", some "Alpha", some 10⟩

/-- A decision object that explicitly denies the security category. -/
def denySecurityDecision : ConsentDecision :=
  ⟨none, none, none, none, none, none, some .denied⟩

/-- The empty partial decision: no category specified. -/
def emptyDecision : ConsentDecision :=
  ⟨none, none, none, none, none, none, none⟩

/-! ## Theorems -/

/-- Claim C1 as stated is false: `saveConsent` persists the decision
object verbatim, so a decision carrying `security_storage : 'denied'` is
persisted (and emitted) with `security` denied, not forced to granted. -/
theorem claim_C1_counterexample :
    ¬ claimC1At denySecurityDecision "2026-02-17T00:00:00.000Z" := by
  unfold claimC1At
  decide

/-- Claim C1, amended: the `gtag('consent','update',...)` object built by
`applyConsent` does not name the security category, so the effective
consent state keeps `security = granted` from the page default for every
decision; but the persisted state and the emitted `consent_updated` event
carry the decision verbatim, so their security field equals whatever the
decision contains (absent at every call site in the repository), rather
than being forced to granted. -/
theorem claim_C1 (d : ConsentDecision) (ts : String) (dl : List DLEntry) :
    (effectiveConsentAfterUpdate d).security_storage = ConsentValue.granted
    ∧ (saveConsent d ts).security_storage = d.security_storage
    ∧ consentUpdatedPayloads (applyConsent d dl) = consentUpdatedPayloads dl ++ [d] := by
  refine ⟨rfl, rfl, ?_⟩
  simp [applyConsent, consentUpdatedPayloads]

/-- Claim C5 as stated is false: for a partial decision the emitted
`consent_updated` event carries the decision object itself, not the full
seven-category merged state — at the empty decision the event's
`analytics_storage` is absent while the resulting state has it denied. -/
theorem claim_C5_counterexample : ¬ claimC5At emptyDecision := by
  unfold claimC5At carriesFullResultingState
  decide

/-- Claim C5, amended: `applyConsent` merges the decision over `denied`
defaults for the six non-security categories in the gtag consent update,
and emits exactly one `consent_updated` event per call — but the event
carries the decision object exactly as passed, not the full resulting
seven-category ConsentState. -/
theorem claim_C5 (d : ConsentDecision) (dl : List DLEntry) :
    consentUpdatedPayloads (applyConsent d dl) = consentUpdatedPayloads dl ++ [d]
    ∧ (gtagUpdateOf d).ad_storage = d.ad_storage.getD .denied
    ∧ (gtagUpdateOf d).ad_user_data = d.ad_user_data.getD .denied
    ∧ (gtagUpdateOf d).ad_personalization = d.ad_personalization.getD .denied
    ∧ (gtagUpdateOf d).analytics_storage = d.analytics_storage.getD .denied
    ∧ (gtagUpdateOf d).functionality_storage = d.functionality_storage.getD .denied
    ∧ (gtagUpdateOf d).personalization_storage = d.personalization_storage.getD .denied := by
  refine ⟨?_, rfl, rfl, rfl, rfl, rfl, rfl⟩
  simp [applyConsent, consentUpdatedPayloads]

/-- The not-found branch of `removeFromBasket`: with no matching row the
state is unchanged except for the recorded warning. -/
theorem removeFromBasket_absent (s : EngineState) (id : String)
    (h : ∀ r ∈ s.basket, r.item_id ≠ id) :
    removeFromBasket id s
      = { s with warnings := s.warnings ++ ["Basket: Item not found for removal: " ++ id] } := by
  unfold removeFromBasket
  have hf : s.basket.find? (fun r => r.item_id == id) = none := by
    rw [List.find?_eq_none]
    intro r hr
    simpa using h r hr
  rw [hf]

/-- Claim C9: removing an absent `itemId` is a no-op with a warning —
basket and persisted state unchanged, one warning recorded, and nothing
(neither a clearing entry nor a `remove_from_cart` event) appended to the
stream. -/
theorem claim_C9 (s : EngineState) (id : String)
    (h : ∀ r ∈ s.basket, r.item_id ≠ id) :
    removeFromBasket id s
      = { s with warnings := s.warnings ++ ["Basket: Item not found for removal: " ++ id] } :=
  removeFromBasket_absent s id h

/-- Witness for C9 at the concrete state with one row `A` and the absent
id `B`. -/
theorem claim_C9_witness :
    (∀ r ∈ sampleStateA.basket, r.item_id ≠ "B")
    ∧ removeFromBasket "B" sampleStateA
        = { sampleStateA with
            warnings := sampleStateA.warnings ++ ["Basket: Item not found for removal: " ++ "B"] } :=
  ⟨by decide, claim_C9 sampleStateA "B" (by decide)⟩

/-- `setQtyFirst` never changes a basket containing no matching row. -/
theorem setQtyFirst_absent (id : String) (n : ℤ) :
    ∀ b : List BasketItem, (∀ r ∈ b, r.item_id ≠ id) → setQtyFirst id n b = b := by
  intro b
  induction b with
  | nil => intro _; rfl
  | cons r rest ih =>
      intro h
      have hr : r.item_id ≠ id := h r (by simp)
      have hbeq : (r.item_id == id) = false := by simpa using hr
      simp only [setQtyFirst, hbeq, if_false, Bool.false_eq_true]
      rw [ih fun x hx => h x (by simp [hx])]

/-- Claim C10: `updateBasketQuantity` with a positive quantity and an
absent `itemId` silently leaves the whole state unchanged — no warning,
no event — in contrast with `removeFromBasket` of the same absent id,
which records a warning. -/
theorem claim_C10 (s : EngineState) (id : String) (n : ℤ) (hn : 0 < n)
    (h : ∀ r ∈ s.basket, r.item_id ≠ id) :
    updateBasketQuantity id n s = s
    ∧ removeFromBasket id s
        = { s with warnings := s.warnings ++ ["Basket: Item not found for removal: " ++ id] } := by
  constructor
  · unfold updateBasketQuantity
    rw [if_neg (not_le.mpr hn), setQtyFirst_absent id n s.basket h]
  · exact removeFromBasket_absent s id h

/-- Witness for C10 at the concrete state with one row `A`, the absent id
`B` and quantity 3. -/
theorem claim_C10_witness :
    ((0 : ℤ) < 3 ∧ ∀ r ∈ sampleStateA.basket, r.item_id ≠ "B")
    ∧ updateBasketQuantity "B" 3 sampleStateA = sampleStateA :=
  ⟨⟨by decide, by decide⟩, (claim_C10 sampleStateA "B" 3 (by decide) (by decide)).1⟩

/-- Claim C3: on a non-empty basket, `pushPurchaseEvent` appends the
clearing entry and a `purchase` event whose value is the pre-clear basket
total and whose items are the pre-clear basket snapshot; only afterwards
is the basket cleared, so the resulting basket is empty with item count
0; the returned (and persisted) order is the same snapshot. -/
theorem claim_C3 (s : EngineState) (rnd : ℕ) (hne : s.basket ≠ []) :
    ((pushPurchaseEvent rnd s).1).dataLayer
      = s.dataLayer ++
          [.clear,
           .ecom "purchase"
             ⟨some ("T-" ++ toString rnd), CURRENCY, getBasketTotal s.basket,
              s.basket.map toEcomItem⟩]
    ∧ ((pushPurchaseEvent rnd s).1).basket = []
    ∧ getBasketItemCount ((pushPurchaseEvent rnd s).1).basket = 0
    ∧ ((pushPurchaseEvent rnd s).1).lastOrder = some (pushPurchaseEvent rnd s).2
    ∧ (pushPurchaseEvent rnd s).2
        = ⟨"T-" ++ toString rnd, getBasketTotal s.basket, CURRENCY, s.basket.map toEcomItem⟩ :=
  ⟨rfl, rfl, rfl, rfl, rfl⟩

/-- Witness for C3 at the spec's example basket
`[{id:"A", price:10, qty:2}, {id:"B", price:5, qty:1}]`: the total is
exactly 25 and the purchase payload snapshots both rows. -/
theorem claim_C3_witness :
    sampleStateAB.basket ≠ []
    ∧ getBasketTotal sampleStateAB.basket = 25
    ∧ ((pushPurchaseEvent 42 sampleStateAB).1).dataLayer
        = sampleStateAB.dataLayer ++
            [.clear,
             .ecom "purchase"
               ⟨some ("T-" ++ toString 42), CURRENCY, getBasketTotal sampleStateAB.basket,
                sampleStateAB.basket.map toEcomItem⟩]
    ∧ ((pushPurchaseEvent 42 sampleStateAB).1).basket = []
    ∧ getBasketItemCount ((pushPurchaseEvent 42 sampleStateAB).1).basket = 0 := by
  have h := claim_C3 sampleStateAB 42 (by decide)
  refine ⟨by decide, ?_, h.1, h.2.1, h.2.2.1⟩
  unfold sampleStateAB getBasketTotal jsRound2 jsRound
  simp only [List.foldl_cons, List.foldl_nil]
  push_cast
  norm_num

/-- Summing line values with `reduce` equals the sum of the mapped line
values. -/
theorem foldl_add_lineSum (f : BasketItem → ℚ) :
    ∀ (b : List BasketItem) (acc : ℚ),
      b.foldl (fun sum item => sum + f item) acc = acc + (b.map f).sum := by
  intro b
  induction b with
  | nil => intro acc; simp
  | cons r rest ih =>
      intro acc
      simp only [List.foldl_cons, List.map_cons, List.sum_cons]
      rw [ih (acc + f r), add_assoc]

/-- Claim C7: `getBasketTotal` sums the unrounded per-line values
`price × quantity` and rounds to 2 decimal places exactly once, on the
final aggregate; in particular three units priced 29.99 total exactly
89.97. -/
theorem claim_C7 :
    (∀ b : List BasketItem,
        getBasketTotal b
          = jsRound2 ((b.map (fun item => item.price * (item.quantity : ℚ))).sum))
    ∧ getBasketTotal [⟨"prod-candle", "Candle", "", (29.99 : ℚ), 3⟩] = (89.97 : ℚ) := by
  constructor
  · intro b
    unfold getBasketTotal
    rw [foldl_add_lineSum (fun item => item.price * (item.quantity : ℚ)) b 0, zero_add]
  · unfold getBasketTotal jsRound2 jsRound
    simp only [List.foldl_cons, List.foldl_nil]
    push_cast
    norm_num

/-- Appending a clear-then-event pair preserves the pair scan. -/
theorem pairsOkFrom_append_pair (n : String) (p : EcommercePayload) :
    ∀ (dl : List DLEntry) (prev : DLEntry), pairsOkFrom prev dl = true →
      pairsOkFrom prev (dl ++ [.clear, .ecom n p]) = true := by
  intro dl
  induction dl with
  | nil =>
      intro prev _
      simp [pairsOkFrom, isEcom, isClear]
  | cons e rest ih =>
      intro prev h
      simp only [List.cons_append, pairsOkFrom, Bool.and_eq_true] at h ⊢
      exact ⟨h.1, ih e h.2⟩

/-- Appending one payload-free entry preserves the pair scan. -/
theorem pairsOkFrom_append_one (x : DLEntry) (hx : isEcom x = false) :
    ∀ (dl : List DLEntry) (prev : DLEntry), pairsOkFrom prev dl = true →
      pairsOkFrom prev (dl ++ [x]) = true := by
  intro dl
  induction dl with
  | nil =>
      intro prev _
      simp [pairsOkFrom, hx]
  | cons e rest ih =>
      intro prev h
      simp only [List.cons_append, pairsOkFrom, Bool.and_eq_true] at h ⊢
      exact ⟨h.1, ih e h.2⟩

/-- Appending a clear-then-event pair preserves the stream invariant. -/
theorem streamOk_append_pair (dl : List DLEntry) (n : String) (p : EcommercePayload)
    (h : streamOk dl = true) : streamOk (dl ++ [.clear, .ecom n p]) = true := by
  cases dl with
  | nil => simp [streamOk, pairsOkFrom, isEcom, isClear]
  | cons e rest =>
      simp only [streamOk, Bool.and_eq_true, List.cons_append] at h ⊢
      exact ⟨h.1, pairsOkFrom_append_pair n p rest e h.2⟩

/-- Appending one payload-free entry preserves the stream invariant. -/
theorem streamOk_append_one (x : DLEntry) (hx : isEcom x = false) (dl : List DLEntry)
    (h : streamOk dl = true) : streamOk (dl ++ [x]) = true := by
  cases dl with
  | nil => simp [streamOk, pairsOkFrom, hx]
  | cons e rest =>
      simp only [streamOk, Bool.and_eq_true, List.cons_append] at h ⊢
      exact ⟨h.1, pairsOkFrom_append_one x hx rest e h.2⟩

/-- `removeFromBasket` preserves the stream invariant. -/
theorem removeFromBasket_streamOk (id : String) (s : EngineState)
    (h : streamOk s.dataLayer = true) :
    streamOk (removeFromBasket id s).dataLayer = true := by
  unfold removeFromBasket
  cases hf : s.basket.find? (fun r => r.item_id == id) with
  | none => exact h
  | some r => exact streamOk_append_pair s.dataLayer _ _ h

/-- Every single engine operation preserves the stream invariant. -/
theorem step_streamOk (op : Op) (s : EngineState) (h : streamOk s.dataLayer = true) :
    streamOk (step op s).dataLayer = true := by
  cases op with
  | add p => exact streamOk_append_pair s.dataLayer _ _ h
  | remove id => exact removeFromBasket_streamOk id s h
  | setQty id n =>
      show streamOk (updateBasketQuantity id n s).dataLayer = true
      unfold updateBasketQuantity
      by_cases hn : n ≤ 0
      · rw [if_pos hn]; exact removeFromBasket_streamOk id s h
      · rw [if_neg hn]; exact h
  | beginCheckout => exact streamOk_append_pair s.dataLayer _ _ h
  | viewCart => exact streamOk_append_pair s.dataLayer _ _ h
  | purchase rnd => exact streamOk_append_pair s.dataLayer _ _ h
  | consent d =>
      have h1 := streamOk_append_one (.gtagConsent (gtagUpdateOf d)) rfl s.dataLayer h
      have h2 := streamOk_append_one (.consentUpdated d) rfl _ h1
      simpa [applyConsent] using h2

/-- Any run of engine operations preserves the stream invariant. -/
theorem runOps_streamOk :
    ∀ (ops : List Op) (s : EngineState), streamOk s.dataLayer = true →
      streamOk (runOps ops s).dataLayer = true := by
  intro ops
  induction ops with
  | nil => intro s h; exact h
  | cons op rest ih => intro s h; exact ih (step op s) (step_streamOk op s h)

/-- From a clean pair scan, a payload-carrying entry at position `k` of
the suffix means the entry just before it (in the stream extended by the
predecessor) is the clearing entry. -/
theorem pairsOkFrom_clear_before :
    ∀ (rest : List DLEntry) (prev : DLEntry), pairsOkFrom prev rest = true →
      ∀ (k : ℕ) (n : String) (p : EcommercePayload),
        rest.get? k = some (.ecom n p) → (prev :: rest).get? k = some DLEntry.clear := by
  intro rest
  induction rest with
  | nil =>
      intro prev _ k n p hk
      simp at hk
  | cons e rest ih =>
      intro prev h k n p hk
      simp only [pairsOkFrom, Bool.and_eq_true] at h
      cases k with
      | zero =>
          have he : e = .ecom n p := by simpa using hk
          subst he
          have hc : isClear prev = true := by simpa [isEcom] using h.1
          cases prev <;> simp_all [isClear]
      | succ k =>
          have hk' : rest.get? k = some (.ecom n p) := by simpa using hk
          simpa using ih e h.2 k n p hk'

/-- In a stream satisfying the invariant, every payload-carrying entry
has the clearing entry directly before it. -/
theorem streamOk_clear_before (dl : List DLEntry) (h : streamOk dl = true) :
    ∀ (i : ℕ) (n : String) (p : EcommercePayload),
      dl.get? i = some (.ecom n p) →
        ∃ j, i = j + 1 ∧ dl.get? j = some DLEntry.clear := by
  cases dl with
  | nil => intro i n p hi; simp at hi
  | cons e rest =>
      intro i n p hi
      simp only [streamOk, Bool.and_eq_true] at h
      cases i with
      | zero =>
          have he : e = .ecom n p := by simpa using hi
          subst he
          simp [isEcom] at h
      | succ k =>
          refine ⟨k, rfl, ?_⟩
          have hk : rest.get? k = some (.ecom n p) := by simpa using hi
          exact pairsOkFrom_clear_before rest e h.2 k n p hk

/-- Claim C2: after any sequence of engine operations from the initial
state, every dataLayer entry carrying an `ecommerce` payload is
immediately preceded by the clearing entry `{ ecommerce: null }`; no
payload-carrying entry is ever appended without it. -/
theorem claim_C2 (ops : List Op) (i : ℕ) (n : String) (p : EcommercePayload)
    (h : ((runOps ops initState).dataLayer).get? i = some (.ecom n p)) :
    ∃ j, i = j + 1 ∧ ((runOps ops initState).dataLayer).get? j = some DLEntry.clear :=
  streamOk_clear_before _ (runOps_streamOk ops initState rfl) i n p h

/-- Witness for C2: one `add` emission, whose `add_to_cart` entry at
position 1 is indeed preceded by the clearing entry at position 0. -/
theorem claim_C2_witness :
    ∃ j, 1 = j + 1 ∧
      ((runOps [Op.add prodA] initState).dataLayer).get? j = some DLEntry.clear :=
  claim_C2 [Op.add prodA] 1 "add_to_cart"
    ⟨none, CURRENCY, 10, [⟨"A", "Alpha", none, 10, 1⟩]⟩ (by decide)

/-- Claim C8 as stated is false: `addToBasket` itself performs no
validation, so called directly with a malformed product (the falsy empty
id) it mutates the basket, emits the event pair and records no warning. -/
theorem claim_C8_counterexample : ¬ claimC8At badProduct initState := by
  unfold claimC8At
  decide

/-- Claim C8, amended: the rejection of malformed items lives in the
products-page click handler, before `addToBasket` is called — with a
missing/empty id or name or a non-numeric price the handler records the
error and returns with the whole state otherwise unchanged (no mutation,
no event, no exception), and only a validated card reaches
`addToBasket`. -/
theorem claim_C8 (card : ProductCard) (s : EngineState) :
    (cardInvalid card = true →
      productsClickAdd (some card) s
        = { s with warnings := s.warnings ++ ["Invalid product data"] })
    ∧ (cardInvalid card = false →
      productsClickAdd (some card) s = addToBasket (productOfCard card) s)
    ∧ productsClickAdd none s
        = { s with warnings := s.warnings ++ ["Could not find parent product card for button"] } := by
  refine ⟨?_, ?_, rfl⟩
  · intro h
    simp [productsClickAdd, h]
  · intro h
    simp [productsClickAdd, h]

/-- Witness for C8: the card with no id is rejected with the state
unchanged, and a valid card flows through to `addToBasket`. -/
theorem claim_C8_witness :
    cardInvalid badCard = true
    ∧ productsClickAdd (some badCard) initState
        = { initState with warnings := initState.warnings ++ ["Invalid product data"] }
    ∧ cardInvalid goodCard = false
    ∧ productsClickAdd (some goodCard) initState
        = addToBasket (productOfCard goodCard) initState :=
  ⟨by decide, (claim_C8 badCard initState).1 (by decide), by decide,
   (claim_C8 goodCard initState).2.1 (by decide)⟩

/-- `addItem` leaves the rows of every other id untouched. -/
theorem addItem_filter_ne (p : Product) (id : String) (hne : (p.item_id == id) = false) :
    ∀ b : List BasketItem,
      (addItem p b).filter (fun r => r.item_id == id)
        = b.filter (fun r => r.item_id == id) := by
  intro b
  induction b with
  | nil => simp [addItem, List.filter_cons, hne]
  | cons r rest ih =>
      by_cases hr : (r.item_id == p.item_id) = true
      · have hrid : r.item_id = p.item_id := by simpa using hr
        have hr2 : (r.item_id == id) = false := by rw [hrid]; exact hne
        simp [addItem, hr, List.filter_cons, hr2]
      · have hr' : (r.item_id == p.item_id) = false := by simpa using hr
        simp [addItem, hr', List.filter_cons, ih]

/-- `addItem` on the product's own id: if no row matched, the fresh
quantity-1 row appears; otherwise the first matching row's quantity is
incremented and the rest are untouched. -/
theorem addItem_filter_self (p : Product) :
    ∀ b : List BasketItem,
      (addItem p b).filter (fun r => r.item_id == p.item_id)
        = match b.filter (fun r => r.item_id == p.item_id) with
          | [] => [⟨p.item_id, p.item_name, p.item_category.getD "", p.price, 1⟩]
          | r :: rest => { r with quantity := r.quantity + 1 } :: rest := by
  intro b
  induction b with
  | nil => simp [addItem, List.filter_cons]
  | cons r rest ih =>
      by_cases hr : (r.item_id == p.item_id) = true
      · simp [addItem, hr, List.filter_cons]
      · have hr' : (r.item_id == p.item_id) = false := by simpa using hr
        simp [addItem, hr', List.filter_cons, ih]

/-- `addItem` keeps at most one row per id. -/
theorem addItem_count_le (p : Product) (id : String) (b : List BasketItem)
    (hb : (b.filter (fun r => r.item_id == id)).length ≤ 1) :
    ((addItem p b).filter (fun r => r.item_id == id)).length ≤ 1 := by
  by_cases hp : (p.item_id == id) = true
  · have hid : p.item_id = id := by simpa using hp
    subst hid
    rw [addItem_filter_self p b]
    cases hf : b.filter (fun r => r.item_id == p.item_id) with
    | nil => simp
    | cons r rest =>
        rw [hf] at hb
        simpa using hb
  · have hp' : (p.item_id == id) = false := by simpa using hp
    rw [addItem_filter_ne p id hp' b]
    exact hb

/-- `addItem` raises the total quantity held under an id by exactly one
when the product carries that id, and by nothing otherwise. -/
theorem addItem_qty_sum (p : Product) (id : String) (b : List BasketItem) :
    (((addItem p b).filter (fun r => r.item_id == id)).map (fun r => r.quantity)).sum
      = ((b.filter (fun r => r.item_id == id)).map (fun r => r.quantity)).sum
        + (if p.item_id == id then 1 else 0) := by
  by_cases hp : (p.item_id == id) = true
  · have hid : p.item_id = id := by simpa using hp
    subst hid
    rw [addItem_filter_self p b]
    cases hf : b.filter (fun r => r.item_id == p.item_id) with
    | nil => simp
    | cons r rest =>
        simp only [List.map_cons, List.sum_cons, if_pos rfl,
          beq_self_eq_true, if_true]
        omega
  · have hp' : (p.item_id == id) = false := by simpa using hp
    rw [addItem_filter_ne p id hp' b]
    simp [hp']

/-- The at-most-one-row property is preserved across any sequence of
`addItem` folds. -/
theorem fold_addItem_count_le (id : String) :
    ∀ (ps : List Product) (b : List BasketItem),
      (b.filter (fun r => r.item_id == id)).length ≤ 1 →
      ((ps.foldl (fun b p => addItem p b) b).filter (fun r => r.item_id == id)).length ≤ 1 := by
  intro ps
  induction ps with
  | nil => intro b hb; simpa using hb
  | cons p rest ih =>
      intro b hb
      simp only [List.foldl_cons]
      exact ih (addItem p b) (addItem_count_le p id b hb)

/-- Folding adds raises the quantity held under an id by the number of
adds carrying that id. -/
theorem fold_addItem_qty_sum (id : String) :
    ∀ (ps : List Product) (b : List BasketItem),
      (((ps.foldl (fun b p => addItem p b) b).filter
          (fun r => r.item_id == id)).map (fun r => r.quantity)).sum
        = ((b.filter (fun r => r.item_id == id)).map (fun r => r.quantity)).sum
          + ((ps.filter (fun p => p.item_id == id)).length : ℤ) := by
  intro ps
  induction ps with
  | nil => intro b; simp
  | cons p rest ih =>
      intro b
      simp only [List.foldl_cons]
      rw [ih (addItem p b), addItem_qty_sum p id b]
      by_cases hp : (p.item_id == id) = true
      · simp only [List.filter_cons, hp, if_pos, List.length_cons, if_true]
        push_cast
        omega
      · have hp' : (p.item_id == id) = false := by simpa using hp
        simp [List.filter_cons, hp']

/-- Running a list of `add` operations acts on the basket component as
the fold of `addItem`. -/
theorem runOps_adds_basket :
    ∀ (ps : List Product) (s : EngineState),
      (runOps (ps.map Op.add) s).basket = ps.foldl (fun b p => addItem p b) s.basket := by
  intro ps
  induction ps with
  | nil => intro s; rfl
  | cons p rest ih => intro s; exact ih (addToBasket p s)

/-- Claim C4: after any sequence of `addToBasket` calls from the empty
basket, no id ever has more than one row, and the quantity held under an
id equals the number of add calls made for that id. -/
theorem claim_C4 (ps : List Product) (id : String) :
    ((runOps (ps.map Op.add) initState).basket.filter
        (fun r => r.item_id == id)).length ≤ 1
    ∧ (((runOps (ps.map Op.add) initState).basket.filter
          (fun r => r.item_id == id)).map (fun r => r.quantity)).sum
        = ((ps.filter (fun p => p.item_id == id)).length : ℤ) := by
  rw [runOps_adds_basket ps initState]
  constructor
  · exact fold_addItem_count_le id ps initState.basket (by simp [initState])
  · rw [fold_addItem_qty_sum id ps initState.basket]
    simp [initState]

/-- On a duplicate-free basket containing the id, `setQtyFirst` leaves
exactly one row under that id and its quantity is the new value. -/
theorem setQtyFirst_filter_self (id : String) (n : ℤ) :
    ∀ b : List BasketItem, (b.map (fun r => r.item_id)).Nodup →
      (∃ r ∈ b, r.item_id = id) →
      ((setQtyFirst id n b).filter (fun r => r.item_id == id)).map (fun r => r.quantity)
        = [n] := by
  intro b
  induction b with
  | nil =>
      intro _ hex
      simp at hex
  | cons r rest ih =>
      intro hnd hex
      have hnd' : r.item_id ∉ rest.map (fun x => x.item_id)
          ∧ (rest.map (fun x => x.item_id)).Nodup := by
        simpa [List.nodup_cons] using hnd
      by_cases hr : (r.item_id == id) = true
      · have hrid : r.item_id = id := by simpa using hr
        have hrest : rest.filter (fun x => x.item_id == id) = [] := by
          rw [List.filter_eq_nil_iff]
          intro x hx
          simp only [beq_iff_eq]
          intro hxid
          exact hnd'.1 (List.mem_map.mpr ⟨x, hx, by rw [hxid, hrid]⟩)
        simp [setQtyFirst, hr, List.filter_cons, hrest]
      · have hr' : (r.item_id == id) = false := by simpa using hr
        have hex' : ∃ x ∈ rest, x.item_id = id := by
          rcases hex with ⟨x, hx, hxid⟩
          rcases List.mem_cons.mp hx with heq | hmem
          · exfalso
            rw [heq] at hxid
            simp [hxid] at hr'
          · exact ⟨x, hmem, hxid⟩
        simp [setQtyFirst, hr', List.filter_cons, ih hnd'.2 hex']

/-- `setQtyFirst` leaves the rows of every other id untouched. -/
theorem setQtyFirst_filter_ne (id : String) (n : ℤ) :
    ∀ b : List BasketItem,
      (setQtyFirst id n b).filter (fun r => r.item_id != id)
        = b.filter (fun r => r.item_id != id) := by
  intro b
  induction b with
  | nil => rfl
  | cons r rest ih =>
      have ih' := ih
      simp only [bne] at ih'
      by_cases hr : (r.item_id == id) = true
      · simp [setQtyFirst, hr, List.filter_cons, bne]
      · have hr' : (r.item_id == id) = false := by simpa using hr
        simp [setQtyFirst, hr', List.filter_cons, bne, ih']

/-- Every row after `setQtyFirst` is either an original row or carries
the new quantity. -/
theorem setQtyFirst_mem (id : String) (n : ℤ) :
    ∀ (b : List BasketItem) (r : BasketItem),
      r ∈ setQtyFirst id n b → r ∈ b ∨ r.quantity = n := by
  intro b
  induction b with
  | nil =>
      intro r hr
      simp [setQtyFirst] at hr
  | cons x rest ih =>
      intro r hr
      by_cases hx : (x.item_id == id) = true
      · simp only [setQtyFirst, hx, if_true, List.mem_cons] at hr
        rcases hr with h1 | h2
        · right; rw [h1]
        · left; simp [h2]
      · have hx' : (x.item_id == id) = false := by simpa using hx
        simp only [setQtyFirst, hx', Bool.false_eq_true, if_false, List.mem_cons] at hr
        rcases hr with h1 | h2
        · left; simp [h1]
        · rcases ih r h2 with h | h
          · left; simp [h]
          · right; exact h

/-- Every row of the basket after `removeFromBasket` was already in the
basket before. -/
theorem removeFromBasket_basket_mem (id : String) (s : EngineState) (r : BasketItem)
    (hr : r ∈ (removeFromBasket id s).basket) : r ∈ s.basket := by
  unfold removeFromBasket at hr
  split at hr
  · exact hr
  · exact (List.mem_filter.mp hr).1

/-- Claim C6: for an id present in a duplicate-free basket,
`updateBasketQuantity` with `n ≤ 0` is literally `removeFromBasket`
(same basket, same persisted state, same emission); with `n > 0` it sets
that row's quantity to `n`, touches no other row, and appends nothing to
the stream; and it never produces a row with quantity `≤ 0`. -/
theorem claim_C6 (s : EngineState) (id : String) (n : ℤ)
    (hpres : ∃ r ∈ s.basket, r.item_id = id)
    (hnodup : (s.basket.map (fun r => r.item_id)).Nodup) :
    (n ≤ 0 → updateBasketQuantity id n s = removeFromBasket id s)
    ∧ (0 < n →
        ((updateBasketQuantity id n s).basket.filter
            (fun r => r.item_id == id)).map (fun r => r.quantity) = [n]
        ∧ (updateBasketQuantity id n s).basket.filter (fun r => r.item_id != id)
            = s.basket.filter (fun r => r.item_id != id)
        ∧ (updateBasketQuantity id n s).dataLayer = s.dataLayer
        ∧ (updateBasketQuantity id n s).warnings = s.warnings)
    ∧ ((∀ r ∈ s.basket, 0 < r.quantity) →
        ∀ r ∈ (updateBasketQuantity id n s).basket, 0 < r.quantity) := by
  refine ⟨?_, ?_, ?_⟩
  · intro hn
    unfold updateBasketQuantity
    rw [if_pos hn]
  · intro hn
    unfold updateBasketQuantity
    rw [if_neg (not_le.mpr hn)]
    exact ⟨setQtyFirst_filter_self id n s.basket hnodup hpres,
           setQtyFirst_filter_ne id n s.basket, rfl, rfl⟩
  · intro hpos r hr
    unfold updateBasketQuantity at hr
    by_cases hn : n ≤ 0
    · rw [if_pos hn] at hr
      exact hpos r (removeFromBasket_basket_mem id s r hr)
    · rw [if_neg hn] at hr
      rcases setQtyFirst_mem id n s.basket r hr with h | h
      · exact hpos r h
      · rw [h]
        exact not_le.mp hn

/-- Witness for C6 at the concrete one-row state: quantity 3 sets the
row; quantity 0 coincides with removal. -/
theorem claim_C6_witness :
    ((∃ r ∈ sampleStateA.basket, r.item_id = "A")
      ∧ (sampleStateA.basket.map (fun r => r.item_id)).Nodup)
    ∧ ((updateBasketQuantity "A" 3 sampleStateA).basket.filter
          (fun r => r.item_id == "A")).map (fun r => r.quantity) = [3]
    ∧ updateBasketQuantity "A" 0 sampleStateA = removeFromBasket "A" sampleStateA :=
  ⟨⟨by decide, by decide⟩,
   ((claim_C6 sampleStateA "A" 3 (by decide) (by decide)).2.1 (by decide)).1,
   (claim_C6 sampleStateA "A" 0 (by decide) (by decide)).1 (by decide)⟩

end GtmSpec
